import Mathlib

/-
Verification of the DNA tiered task-processing core against its code.

The definitions below are a shallow embedding of:
  - lib/core/dna_general_settings.py  (tier catalog, status constants, timeout)
  - lib/core/dna_compute_main.py      (worker runtime loop, escalation)
  - lib/core/dna_gae_handlers.py      (task_manager admission loop, ce_cleanup sweeper)
  - lib/utils/utils.py                (retry wrapper)
  - lib/utils/api_handlers.py         (APIRequest.execute retry loop)

Remote calls (queue, compute, datastore) are modelled by the operations the
core issues, collected as explicit traces; their outcomes enter as parameters.
-/

namespace DNA

/-- Status constants from dna_general_settings.py (DNA_STATUS_ACTIVE etc.).
A Python status field holding None is modelled as `(none : Option Status)`,
matching the falsiness test `if not entity[...]` in the handlers. -/
inductive Status
| ACTIVE
| CREATED
| DONE
| FAILED
| RUNNING
deriving DecidableEq, Repr

/-- The four machine levels keyed in GCE_MACHINE_MAP. -/
inductive Level
| l0
| l1
| l2
| l3
deriving DecidableEq, Repr

/-- Per-level configuration record held in GCE_MACHINE_MAP. -/
structure MachineSpec where
  vmType : String
  zone : String
  queue : String
  quota : Nat
deriving DecidableEq, Repr

/-- GCE_MACHINE_MAP from dna_general_settings.py, lines 41-65. -/
def GCE_MACHINE_MAP : Level → MachineSpec
| Level.l0 => ⟨"custom-1-6656", "europe-west1-b", "dna-tasks-l0", 8⟩
| Level.l1 => ⟨"n1-highmem-2", "europe-west2-b", "dna-tasks-l1", 8⟩
| Level.l2 => ⟨"n1-highmem-4", "europe-west3-b", "dna-tasks-l2", 4⟩
| Level.l3 => ⟨"n1-highmem-8", "europe-west3-b", "dna-tasks-l3", 1⟩

/-- GCE_MAX_STARTUP_TIME from dna_general_settings.py line 92 (seconds). -/
def GCE_MAX_STARTUP_TIME : Nat := 3 * 60

/- ----------------------------------------------------------------
Worker runtime: lib/core/dna_compute_main.py, function main.
---------------------------------------------------------------- -/

/-- Computation of next_level in dna_compute_main.py lines 102-109:
next_level starts as None and is set by the if/elif chain only when the
returncode equals 137. -/
def next_level (returncode : Int) (level : Level) : Option Level :=
  if returncode = 137 then
    match level with
    | Level.l0 => some Level.l1
    | Level.l1 => some Level.l2
    | Level.l2 => some Level.l3
    | Level.l3 => none
  else none

/-- A queue operation issued by the worker runtime. -/
inductive QOp
| ack (taskName scheduleTime : String)
| enqueue (queue payload : String)
deriving DecidableEq, Repr

/-- Outcome of the job subprocess (subprocess.check_call in
dna_compute_main.py line 90): either success or a CalledProcessError
carrying the exit returncode. -/
inductive JobResult
| success
| calledProcessError (returncode : Int)
deriving DecidableEq, Repr

/-- The except-CalledProcessError handler of dna_compute_main.py lines
100-125: when a next level exists the original task is acknowledged and the
identical payload is enqueued onto the next level queue (in that order);
otherwise the error is re-raised (`raise err`), modelled as Except.error. -/
def handle_process_error (level : Level) (returncode : Int)
    (task_name schedule_time payload : String) : Except Int (List QOp) :=
  match next_level returncode level with
  | some nl =>
      Except.ok [QOp.ack task_name schedule_time,
                 QOp.enqueue (GCE_MACHINE_MAP nl).queue payload]
  | none => Except.error returncode

/-- Queue operations issued while processing one leased task (the inner try
block of dna_compute_main.py lines 88-125): on success the task is
acknowledged; on CalledProcessError the handler runs, and if it re-raises
the outer broad except (lines 128-132) logs the error, so no queue
operation is issued. -/
def task_try_ops (level : Level) (task_name schedule_time payload : String)
    (job : JobResult) : List QOp :=
  match job with
  | JobResult.success => [QOp.ack task_name schedule_time]
  | JobResult.calledProcessError rc =>
      match handle_process_error level rc task_name schedule_time payload with
      | Except.ok ops => ops
      | Except.error _ => []

/-- Outcome of one gct_leasetask call in the worker loop: the call raises,
returns a response without a tasks key, or returns one leased task together
with the result its job will have. -/
inductive LeaseResult
| leaseError
| empty
| task (task_name schedule_time payload : String) (job : JobResult)

/-- The while loop of dna_compute_main.py lines 66-133, driven by the
sequence of lease outcomes. task_in_queue is set False at the top of each
iteration, so when the lease call raises (caught by the broad except) or
returns no tasks, the loop exits; otherwise the task is processed and the
loop continues. Returns the concatenated queue-operation trace. -/
def worker_loop (level : Level) : List LeaseResult → List QOp
| [] => []
| LeaseResult.leaseError :: _ => []
| LeaseResult.empty :: _ => []
| LeaseResult.task n st p job :: rest =>
    task_try_ops level n st p job ++ worker_loop level rest

/-- Function main of dna_compute_main.py: marks the ce_entity ACTIVE
(lines 54-56), runs the lease loop, then marks it DONE (lines 135-137).
Returns the queue-operation trace and the final persisted status. -/
def worker_main (level : Level) (leases : List LeaseResult) :
    List QOp × Option Status :=
  let st0 := some Status.ACTIVE
  let ops := worker_loop level leases
  let st1 := if st0 = st0 then some Status.DONE else st0
  (ops, st1)

/- ----------------------------------------------------------------
Admission controller: lib/core/dna_gae_handlers.py, function task_manager.
---------------------------------------------------------------- -/

/-- Python str.find over character lists: lowest index at which pat occurs
in s, or -1 when it never occurs. -/
def pyfind (pat : List Char) : List Char → Int
| [] => if pat.isPrefixOf ([] : List Char) then 0 else -1
| c :: t =>
    if pat.isPrefixOf (c :: t) then 0
    else
      let r := pyfind pat t
      if r = -1 then -1 else r + 1

/-- Machine-type extraction of dna_gae_handlers.py lines 66-67:
starting_idx is the find result for the substring machineTypes/ and mtype is
the slice from starting_idx + 13 on (13 is the length of machineTypes/). -/
def machine_type_of (machineType : String) : String :=
  let starting_idx := pyfind ("machineTypes/".toList) machineType.toList
  String.mk (machineType.toList.drop (starting_idx + 13).toNat)

/-- Count of running instances whose extracted machine type equals the level
vm type (dna_gae_handlers.py lines 62-69); a listing response without an
items key is modelled as none and yields 0. -/
def num_running_ce (ce_list : Option (List String)) (vm_type : String) : Nat :=
  match ce_list with
  | none => 0
  | some items => items.countP (fun item => machine_type_of item == vm_type)

/-- pool_size computation of dna_gae_handlers.py lines 77-78, in Python
integer arithmetic: quota - num_running_ce, then min with num_tasks. -/
def task_manager_pool_size (quota num_running num_tasks : Int) : Int :=
  min (quota - num_running) num_tasks

/-- Number of loop iterations executed by the creation loop (lines 85-86):
pool_size when the task list has a tasks key and pool_size is positive,
otherwise 0 (a range over a non-positive pool_size is empty). -/
def task_manager_launched (quota : Int) (num_running : Nat)
    (num_tasks : Option Nat) : Nat :=
  match num_tasks with
  | some n =>
      let ps := task_manager_pool_size quota num_running n
      if ps > 0 then ps.toNat else 0
  | none => 0

/-- One observable side effect of the task_manager creation loop body
(dna_gae_handlers.py lines 86-149). -/
inductive TMOp
| insertRecord (status : Option Status)
| createInstance (machine_type : String)
| updateRecord (status : Option Status)
deriving DecidableEq, Repr

/-- Side-effect trace of one level iteration of task_manager: for each of
the launched iterations, gds_insert with status None (line 94-102), then
gce_createinstance (line 144), then gds_update to CREATED (lines 147-148). -/
def task_manager_level (vm_type : String) (ce_list : Option (List String))
    (num_tasks : Option Nat) (quota : Int) : List TMOp :=
  let launched := task_manager_launched quota (num_running_ce ce_list vm_type)
    num_tasks
  (List.range launched).flatMap (fun _ =>
    [TMOp.insertRecord none, TMOp.createInstance vm_type,
     TMOp.updateRecord (some Status.CREATED)])

/-- Replay of a TMOp trace into the final statuses of the inserted records:
gds_insert appends a record, gds_update in the loop body rewrites the record
inserted in the same iteration, which is always the most recent one. -/
def replay_records (ops : List TMOp) : List (Option Status) :=
  ops.foldl (fun recs op =>
    match op with
    | TMOp.insertRecord st => recs ++ [st]
    | TMOp.updateRecord st => recs.dropLast ++ [st]
    | TMOp.createInstance _ => recs) []

/-- Predicate picking the instance-creation events out of a TMOp trace. -/
def is_create_instance : TMOp → Bool
| TMOp.createInstance _ => true
| _ => false

/-- Predicate picking the record-insertion events out of a TMOp trace. -/
def is_insert_record : TMOp → Bool
| TMOp.insertRecord _ => true
| _ => false

/- ----------------------------------------------------------------
Lifecycle sweeper: lib/core/dna_gae_handlers.py, function ce_cleanup.
---------------------------------------------------------------- -/

/-- Per-entity body of ce_cleanup (dna_gae_handlers.py lines 163-189).
Returns (instance deleted, record deleted). The three tests are sequential
non-exclusive ifs: a falsy status deletes only the record; a CREATED status
older than GCE_MAX_STARTUP_TIME sets startup_failed; a DONE status or
startup_failed deletes the instance and the record. now and t0 are
time.time values in seconds. -/
def ce_cleanup_entity (status : Option Status) (now t0 : ℚ) : Bool × Bool :=
  let startup_failed := false
  let record_deleted_early := status.isNone
  let startup_failed :=
    if status = some Status.CREATED then
      (if now - t0 > (GCE_MAX_STARTUP_TIME : ℚ) then true else startup_failed)
    else startup_failed
  let final_delete := (status = some Status.DONE) || startup_failed
  (final_delete, record_deleted_early || final_delete)

/- ----------------------------------------------------------------
Record-status lifecycle across components, for the monotonicity claim.
---------------------------------------------------------------- -/

/-- One atomic step touching a single WorkerRecord, drawn from the code:
the admission controller inserts the record with status None
(dna_gae_handlers.py line 94-102), requests instance creation (line 144) and
updates the status to CREATED (lines 147-148); the worker runtime on the new
instance updates the status to ACTIVE (dna_compute_main.py lines 54-56) and
later to DONE (lines 135-137). The sweeper never writes a status field, so
it contributes no step here. -/
inductive LifeStep
| insertRecordNone
| createInstance
| writeCreated
| writeActive
| writeDone
deriving DecidableEq, Repr, Fintype

/-- Program order of the admission controller for one record. -/
def controller_steps : List LifeStep :=
  [LifeStep.insertRecordNone, LifeStep.createInstance, LifeStep.writeCreated]

/-- Program order of the worker runtime for its own record. -/
def worker_steps : List LifeStep :=
  [LifeStep.writeActive, LifeStep.writeDone]

/-- Boolean sublist test: every element of the first list occurs in the
second, in order. -/
def is_sublist : List LifeStep → List LifeStep → Bool
| [], _ => true
| _ :: _, [] => false
| a :: xs, b :: ys =>
    if a = b then is_sublist xs ys else is_sublist (a :: xs) ys

/-- A schedule is valid when it interleaves the controller program order
with the worker program order (both embed in it and it has exactly their
five steps), and the worker only runs after its instance was created:
createInstance precedes writeActive. No further synchronisation exists in
the code, in particular nothing orders writeCreated against writeActive. -/
def valid_schedule (s : List LifeStep) : Bool :=
  is_sublist controller_steps s && is_sublist worker_steps s &&
  (s.length = 5 : Bool) &&
  (s.indexOf LifeStep.createInstance < s.indexOf LifeStep.writeActive : Bool)

/-- The status value a step writes to the record, if any. -/
def status_write : LifeStep → Option (Option Status)
| LifeStep.insertRecordNone => some none
| LifeStep.createInstance => none
| LifeStep.writeCreated => some (some Status.CREATED)
| LifeStep.writeActive => some (some Status.ACTIVE)
| LifeStep.writeDone => some (some Status.DONE)

/-- The successive status values the record holds along a schedule. -/
def status_writes (s : List LifeStep) : List (Option Status) :=
  s.filterMap status_write

/-- Rank of a status in the lifecycle order unset, CREATED, ACTIVE, DONE.
FAILED and RUNNING never occur on a WorkerRecord. -/
def status_rank : Option Status → Nat
| none => 0
| some Status.CREATED => 1
| some Status.ACTIVE => 2
| some Status.DONE => 3
| some Status.FAILED => 0
| some Status.RUNNING => 0

/-- Check that each successive status value strictly increases the rank. -/
def ranks_ascending : List (Option Status) → Bool
| [] => true
| [_] => true
| a :: b :: t => (status_rank a < status_rank b : Bool) && ranks_ascending (b :: t)

/-- A schedule is forward moving when each successive status write strictly
increases the rank. -/
def forward_moving (s : List LifeStep) : Bool :=
  ranks_ascending (status_writes s)

/- ----------------------------------------------------------------
Retry wrappers: lib/utils/utils.py retry and
lib/utils/api_handlers.py APIRequest.execute.
---------------------------------------------------------------- -/

/-- _MAX_RETRY in utils.py line 223. -/
def retry_MAX_RETRY : Nat := 5

/-- The while loop of the wrapper in utils.py lines 225-244, started with
retry_attempts prior failures. some_function gives the outcome of the k-th
call overall. On failure, retry_attempts is incremented; while it stays at
most _MAX_RETRY, the loop sleeps 2 ^ retry_attempts seconds (collected in
the returned list) and calls again; beyond the ceiling the error of the
last call is raised. -/
def retry_wrapper_loop {E α : Type} (some_function : Nat → Except E α)
    (retry_attempts : Nat) : Except E α × List Nat :=
  match some_function retry_attempts with
  | Except.ok v => (Except.ok v, [])
  | Except.error e =>
      if _h : retry_attempts + 1 ≤ retry_MAX_RETRY then
        let rest := retry_wrapper_loop some_function (retry_attempts + 1)
        (rest.1, 2 ^ (retry_attempts + 1) :: rest.2)
      else
        (Except.error e, [])
termination_by retry_MAX_RETRY + 1 - retry_attempts
decreasing_by simp [retry_MAX_RETRY] at _h ⊢; omega

/-- The retry decorator of utils.py lines 221-246 applied to a call whose
k-th execution yields some_function k. Returns the final outcome and the
list of sleep durations. -/
def retry {E α : Type} (some_function : Nat → Except E α) :
    Except E α × List Nat :=
  retry_wrapper_loop some_function 0

/-- _MAX_RETRIES in api_handlers.py line 39. -/
def APIRequest_MAX_RETRIES : Nat := 5

/-- The while True loop of APIRequest.execute together with _retryrequest
(api_handlers.py lines 45-71), started with retry_attempts prior failures.
Identical retry discipline: on failure the attempt counter is incremented;
up to _MAX_RETRIES it sleeps 2 ^ attempts seconds and retries, afterwards
the error of the last request is raised. -/
def APIRequest_execute_loop {E α : Type} (request : Nat → Except E α)
    (retry_attempts : Nat) : Except E α × List Nat :=
  match request retry_attempts with
  | Except.ok v => (Except.ok v, [])
  | Except.error e =>
      if _h : retry_attempts + 1 ≤ APIRequest_MAX_RETRIES then
        let rest := APIRequest_execute_loop request (retry_attempts + 1)
        (rest.1, 2 ^ (retry_attempts + 1) :: rest.2)
      else
        (Except.error e, [])
termination_by APIRequest_MAX_RETRIES + 1 - retry_attempts
decreasing_by simp [APIRequest_MAX_RETRIES] at _h ⊢; omega

/-- APIRequest(request).execute() with a fresh instance, whose
_retry_attempts starts at 0 (api_handlers.py lines 41-43). -/
def APIRequest_execute {E α : Type} (request : Nat → Except E α) :
    Except E α × List Nat :=
  APIRequest_execute_loop request 0

/- ----------------------------------------------------------------
Escalation queue-state abstraction, for the temporal claim.
---------------------------------------------------------------- -/

/-- Abstract joint state of the two queues during an escalation: whether
the original task is still present in the current-tier queue, and whether
the escalated payload is present in the next-tier queue. An acknowledge
removes the original task; an enqueue adds the payload to the next queue. -/
def apply_qop (s : Bool × Bool) : QOp → Bool × Bool
| QOp.ack _ _ => (false, s.2)
| QOp.enqueue _ _ => (s.1, true)

/- ----------------------------------------------------------------
Theorems.
---------------------------------------------------------------- -/

/-- Claim C1: for every task leased by the worker runtime whose job
subprocess exits with code 137 at a tier that has a next larger tier, the
runtime acknowledges the original task and enqueues exactly one new task
onto the next tier queue whose payload is byte-for-byte identical to the
original payload: the queue-operation trace of the iteration is exactly the
acknowledge of the original task followed by one enqueue of the unchanged
payload onto the next level queue. -/
theorem escalation_payload_preserving :
    ∀ (level nl : Level), next_level 137 level = some nl →
    ∀ (task_name schedule_time payload : String),
    task_try_ops level task_name schedule_time payload
        (JobResult.calledProcessError 137)
      = [QOp.ack task_name schedule_time,
         QOp.enqueue (GCE_MACHINE_MAP nl).queue payload] := by
  intro level nl h task_name schedule_time payload
  cases level <;> simp [next_level] at h <;>
    simp [task_try_ops, handle_process_error, next_level, ← h]

/-- Witness for C1 at level l0: the escalation trace is the acknowledge
followed by a single enqueue onto dna-tasks-l1 with the same payload. -/
theorem escalation_payload_preserving_witness :
    next_level 137 Level.l0 = some Level.l1
    ∧ task_try_ops Level.l0 "t" "s" "p" (JobResult.calledProcessError 137)
      = [QOp.ack "t" "s", QOp.enqueue "dna-tasks-l1" "p"] :=
  ⟨rfl, escalation_payload_preserving Level.l0 Level.l1 rfl "t" "s" "p"⟩

/-- Claim C3: when a job fails with exit code 137 at the maximal tier l3,
next_level stays None, so the handler re-raises the error to its caller
(Except.error, the `raise err` of line 125) instead of swallowing it, and
the iteration issues no queue operation at all: no enqueue on any queue and
no acknowledge (the outer broad except then logs the error, leaving the
task to expire at the same tier as §7 of the spec describes). -/
theorem max_tier_failure_surfaced :
    ∀ (task_name schedule_time payload : String),
    handle_process_error Level.l3 137 task_name schedule_time payload
        = Except.error 137
    ∧ task_try_ops Level.l3 task_name schedule_time payload
        (JobResult.calledProcessError 137) = [] := by
  intro task_name schedule_time payload
  exact ⟨rfl, rfl⟩

/-- Claim C6: for every leased task whose job subprocess fails with an exit
code other than 137, the iteration issues no acknowledge and no enqueue
(the task stays leased) and the worker loop continues with the remaining
lease attempts instead of terminating. -/
theorem non_oom_failure_keeps_task :
    ∀ (level : Level) (rc : Int), rc ≠ 137 →
    ∀ (task_name schedule_time payload : String) (rest : List LeaseResult),
    task_try_ops level task_name schedule_time payload
        (JobResult.calledProcessError rc) = []
    ∧ worker_loop level (LeaseResult.task task_name schedule_time payload
        (JobResult.calledProcessError rc) :: rest) = worker_loop level rest := by
  intro level rc h task_name schedule_time payload rest
  have h1 : task_try_ops level task_name schedule_time payload
      (JobResult.calledProcessError rc) = [] := by
    simp [task_try_ops, handle_process_error, next_level, h]
  exact ⟨h1, by simp [worker_loop, h1]⟩

/-- Witness for C6 at exit code 1 on level l0 with one further lease
attempt behind. -/
theorem non_oom_failure_keeps_task_witness :
    (1 : Int) ≠ 137
    ∧ task_try_ops Level.l0 "t" "s" "p" (JobResult.calledProcessError 1) = []
    ∧ worker_loop Level.l0 [LeaseResult.task "t" "s" "p"
        (JobResult.calledProcessError 1), LeaseResult.empty]
      = worker_loop Level.l0 [LeaseResult.empty] :=
  ⟨by decide,
   (non_oom_failure_keeps_task Level.l0 1 (by decide) "t" "s" "p"
      [LeaseResult.empty]).1,
   (non_oom_failure_keeps_task Level.l0 1 (by decide) "t" "s" "p"
      [LeaseResult.empty]).2⟩

/-- Claim C9: in every escalation the acknowledge of the original task is
issued strictly before the enqueue onto the next tier queue (the trace is
exactly acknowledge then enqueue), and replaying the trace over the joint
queue state starting from (original present, next absent) passes through
(absent, absent) and ends at (absent, present): at no intermediate point is
the payload in both queues, while a failure between the two calls leaves it
in neither. -/
theorem escalation_ack_before_enqueue :
    ∀ (level nl : Level), next_level 137 level = some nl →
    ∀ (task_name schedule_time payload : String),
    task_try_ops level task_name schedule_time payload
        (JobResult.calledProcessError 137)
      = [QOp.ack task_name schedule_time,
         QOp.enqueue (GCE_MACHINE_MAP nl).queue payload]
    ∧ List.scanl apply_qop (true, false)
        (task_try_ops level task_name schedule_time payload
          (JobResult.calledProcessError 137))
      = [(true, false), (false, false), (false, true)] := by
  intro level nl h task_name schedule_time payload
  cases level <;> simp [next_level] at h <;>
    simp [task_try_ops, handle_process_error, next_level, ← h, apply_qop]

/-- Witness for C9 at level l0. -/
theorem escalation_ack_before_enqueue_witness :
    next_level 137 Level.l0 = some Level.l1
    ∧ task_try_ops Level.l0 "t" "s" "p" (JobResult.calledProcessError 137)
      = [QOp.ack "t" "s", QOp.enqueue "dna-tasks-l1" "p"]
    ∧ List.scanl apply_qop (true, false)
        (task_try_ops Level.l0 "t" "s" "p" (JobResult.calledProcessError 137))
      = [(true, false), (false, false), (false, true)] :=
  ⟨rfl, (escalation_ack_before_enqueue Level.l0 Level.l1 rfl "t" "s" "p").1,
   (escalation_ack_before_enqueue Level.l0 Level.l1 rfl "t" "s" "p").2⟩

/-- Claim C10: if the lease call raises in the worker loop, the loop exits
on that iteration (task_in_queue was reset to False before the call and the
broad except only logs), no further lease outcome is processed, and the
WorkerRecord is still marked DONE; hence a DONE status does not imply the
queue was drained, since the remaining trace behind the failed call is
arbitrary and may contain tasks. -/
theorem lease_error_exits_done :
    ∀ (level : Level) (rest : List LeaseResult),
    worker_main level (LeaseResult.leaseError :: rest)
      = ([], some Status.DONE) := by
  intro level rest
  rfl

/-- Claim C8: with quota 2, five pending tasks and zero running instances,
one task_manager pass over the tier creates exactly two compute instances
and exactly two WorkerRecords, and both records end the invocation with
status CREATED. -/
theorem admission_scenario_quota2 :
    task_manager_level "custom-1-6656" (some []) (some 5) 2
      = [TMOp.insertRecord none, TMOp.createInstance "custom-1-6656",
         TMOp.updateRecord (some Status.CREATED), TMOp.insertRecord none,
         TMOp.createInstance "custom-1-6656",
         TMOp.updateRecord (some Status.CREATED)]
    ∧ (task_manager_level "custom-1-6656" (some []) (some 5) 2).countP
        is_create_instance = 2
    ∧ (task_manager_level "custom-1-6656" (some []) (some 5) 2).countP
        is_insert_record = 2
    ∧ replay_records (task_manager_level "custom-1-6656" (some []) (some 5) 2)
      = [some Status.CREATED, some Status.CREATED] := by
  decide

/-- Claim C2 as stated is false on the code: with quota 2, 3 instances
already running and 1 pending task, the invocation launches nothing, yet
runningCount + newlyLaunched = 3 exceeds the quota 2, contradicting the
parenthetical runningCount + newlyLaunched <= quota. -/
theorem admission_quota_counterexample :
    ¬ ((3 : Int) + (task_manager_launched 2 3 (some 1) : Int) ≤ 2) := by
  decide

/-- Claim C2 amended: a single invocation launches at most
max(0, quota - runningCount) workers, when runningCount >= quota it
launches no instances regardless of how many tasks are pending, and
runningCount + newlyLaunched <= quota holds whenever runningCount <= quota
(when runningCount already exceeds quota nothing is launched but the total
stays above quota). -/
theorem admission_launch_bound :
    ∀ (quota : Int) (running : Nat) (tasks : Option Nat),
    (task_manager_launched quota running tasks : Int)
        ≤ max 0 (quota - (running : Int))
    ∧ (quota ≤ (running : Int) → task_manager_launched quota running tasks = 0)
    ∧ ((running : Int) ≤ quota →
        (running : Int) + (task_manager_launched quota running tasks : Int)
          ≤ quota) := by
  intro quota running tasks
  cases tasks with
  | none =>
      refine ⟨?_, fun _ => rfl, ?_⟩
      · simp [task_manager_launched]
      · intro h
        simpa [task_manager_launched] using h
  | some n =>
      simp only [task_manager_launched, task_manager_pool_size]
      split_ifs with h
      · refine ⟨?_, ?_, ?_⟩ <;> intros <;> omega
      · refine ⟨?_, fun _ => rfl, ?_⟩
        · simp
        · intro hle
          simpa using hle

/-- Witness for the amended C2: at quota 2 with 3 running nothing is
launched, and at quota 2 with 1 running the total stays within quota. -/
theorem admission_launch_bound_witness :
    ((task_manager_launched 2 3 (some 5) : Int) ≤ max 0 ((2 : Int) - 3))
    ∧ task_manager_launched 2 3 (some 5) = 0
    ∧ ((1 : Int) + (task_manager_launched 2 1 (some 5) : Int) ≤ 2) :=
  ⟨(admission_launch_bound 2 3 (some 5)).1,
   (admission_launch_bound 2 3 (some 5)).2.1 (by norm_num),
   (admission_launch_bound 2 1 (some 5)).2.2 (by norm_num)⟩

/-- Claim C4: one sweeper pass deletes instance and record for every DONE
record, deletes instance and record for every CREATED record whose elapsed
time since t0 strictly exceeds GCE_MAX_STARTUP_TIME (180 seconds), deletes
only the record (no instance-deletion request) when the status is unset,
and touches neither instance nor record for an ACTIVE record or a CREATED
record still within the timeout window. The pair returned by
ce_cleanup_entity is (instance deleted, record deleted). -/
theorem sweeper_classification :
    ∀ (now t0 : ℚ),
    ce_cleanup_entity (some Status.DONE) now t0 = (true, true)
    ∧ (now - t0 > (GCE_MAX_STARTUP_TIME : ℚ) →
        ce_cleanup_entity (some Status.CREATED) now t0 = (true, true))
    ∧ ce_cleanup_entity none now t0 = (false, true)
    ∧ ce_cleanup_entity (some Status.ACTIVE) now t0 = (false, false)
    ∧ (now - t0 ≤ (GCE_MAX_STARTUP_TIME : ℚ) →
        ce_cleanup_entity (some Status.CREATED) now t0 = (false, false)) := by
  intro now t0
  refine ⟨rfl, fun h => ?_, rfl, rfl, fun h => ?_⟩
  · simp [ce_cleanup_entity, h]
  · simp [ce_cleanup_entity, not_lt.mpr h]

/-- Witness for C4: a CREATED record 4 minutes old is reclaimed together
with its instance, and a CREATED record 1 minute old is left untouched. -/
theorem sweeper_classification_witness :
    ce_cleanup_entity (some Status.CREATED) 240 0 = (true, true)
    ∧ ce_cleanup_entity (some Status.CREATED) 60 0 = (false, false) :=
  ⟨(sweeper_classification 240 0).2.1 (by norm_num [GCE_MAX_STARTUP_TIME]),
   (sweeper_classification 60 0).2.2.2.2 (by norm_num [GCE_MAX_STARTUP_TIME])⟩

/-- Helper for the amended C5, by exhausting the 3125 step assignments of a
five-step schedule. -/
theorem schedule5_forward : ∀ a b c d e : LifeStep,
    valid_schedule [a, b, c, d, e] = true →
    [a, b, c, d, e].indexOf LifeStep.writeCreated
      < [a, b, c, d, e].indexOf LifeStep.writeActive →
    forward_moving [a, b, c, d, e] = true := by
  decide

/-- Claim C5 as stated is false on the code: the schedule insertRecordNone,
createInstance, writeActive, writeCreated, writeDone is a valid interleaving
of the controller and worker program orders (the worker starts only after
createInstance, and nothing in the code orders the controller CREATED
update against the worker ACTIVE update), yet its status writes are unset,
ACTIVE, CREATED, DONE: the CREATED write lands on top of ACTIVE, a backward
transition. -/
theorem status_monotonic_counterexample :
    valid_schedule [LifeStep.insertRecordNone, LifeStep.createInstance,
        LifeStep.writeActive, LifeStep.writeCreated, LifeStep.writeDone] = true
    ∧ forward_moving [LifeStep.insertRecordNone, LifeStep.createInstance,
        LifeStep.writeActive, LifeStep.writeCreated, LifeStep.writeDone]
      = false := by
  decide

/-- Claim C5 amended: in every valid interleaving of the admission
controller steps and the worker runtime steps in which the controller
CREATED update lands before the worker marks the record ACTIVE, the
successive status writes strictly ascend the order unset, CREATED, ACTIVE,
DONE; the only violation is the race in which the worker writes ACTIVE
before the controller CREATED update lands. The sweeper writes no status,
so it adds no step. -/
theorem status_monotonic_when_created_first :
    ∀ s : List LifeStep, valid_schedule s = true →
    s.indexOf LifeStep.writeCreated < s.indexOf LifeStep.writeActive →
    forward_moving s = true := by
  intro s hv hord
  have hlen : s.length = 5 := by
    unfold valid_schedule at hv
    simp only [Bool.and_eq_true, decide_eq_true_eq] at hv
    exact hv.1.2
  rcases s with _ | ⟨a, s⟩; · simp at hlen
  rcases s with _ | ⟨b, s⟩; · simp at hlen
  rcases s with _ | ⟨c, s⟩; · simp at hlen
  rcases s with _ | ⟨d, s⟩; · simp at hlen
  rcases s with _ | ⟨e, s⟩; · simp at hlen
  rcases s with _ | ⟨f, s⟩
  · exact schedule5_forward a b c d e hv hord
  · simp at hlen

/-- Witness for the amended C5: the intended boot sequence, in which the
CREATED update precedes the ACTIVE write, is valid and forward moving. -/
theorem status_monotonic_when_created_first_witness :
    valid_schedule [LifeStep.insertRecordNone, LifeStep.createInstance,
        LifeStep.writeCreated, LifeStep.writeActive, LifeStep.writeDone] = true
    ∧ [LifeStep.insertRecordNone, LifeStep.createInstance,
        LifeStep.writeCreated, LifeStep.writeActive,
        LifeStep.writeDone].indexOf LifeStep.writeCreated
      < [LifeStep.insertRecordNone, LifeStep.createInstance,
          LifeStep.writeCreated, LifeStep.writeActive,
          LifeStep.writeDone].indexOf LifeStep.writeActive
    ∧ forward_moving [LifeStep.insertRecordNone, LifeStep.createInstance,
        LifeStep.writeCreated, LifeStep.writeActive, LifeStep.writeDone]
      = true :=
  ⟨by decide, by decide,
   status_monotonic_when_created_first
     [LifeStep.insertRecordNone, LifeStep.createInstance,
      LifeStep.writeCreated, LifeStep.writeActive, LifeStep.writeDone]
     (by decide) (by decide)⟩

/-- Unfolding lemma for retry_wrapper_loop when the current call succeeds. -/
theorem retry_wrapper_loop_ok {E α : Type} (f : Nat → Except E α) (r : Nat)
    (a : α) (hf : f r = Except.ok a) :
    retry_wrapper_loop f r = (Except.ok a, []) := by
  unfold retry_wrapper_loop
  rw [hf]

/-- Unfolding lemma for retry_wrapper_loop when the current call fails and
the retry ceiling is not yet reached. -/
theorem retry_wrapper_loop_error_step {E α : Type} (f : Nat → Except E α)
    (r : Nat) (e : E) (hf : f r = Except.error e) (hr : r + 1 ≤ retry_MAX_RETRY) :
    retry_wrapper_loop f r
      = ((retry_wrapper_loop f (r + 1)).1,
         2 ^ (r + 1) :: (retry_wrapper_loop f (r + 1)).2) := by
  conv_lhs => rw [retry_wrapper_loop]
  rw [hf]
  simp [hr]

/-- Unfolding lemma for retry_wrapper_loop when the current call fails and
the retry ceiling is exhausted: the error of this last call is raised. -/
theorem retry_wrapper_loop_error_end {E α : Type} (f : Nat → Except E α)
    (r : Nat) (e : E) (hf : f r = Except.error e)
    (hr : ¬ (r + 1 ≤ retry_MAX_RETRY)) :
    retry_wrapper_loop f r = (Except.error e, []) := by
  conv_lhs => rw [retry_wrapper_loop]
  rw [hf]
  simp [hr]

/-- Unfolding lemma for APIRequest_execute_loop when the current request
succeeds. -/
theorem APIRequest_execute_loop_ok {E α : Type} (f : Nat → Except E α)
    (r : Nat) (a : α) (hf : f r = Except.ok a) :
    APIRequest_execute_loop f r = (Except.ok a, []) := by
  unfold APIRequest_execute_loop
  rw [hf]

/-- Unfolding lemma for APIRequest_execute_loop when the current request
fails below the ceiling. -/
theorem APIRequest_execute_loop_error_step {E α : Type} (f : Nat → Except E α)
    (r : Nat) (e : E) (hf : f r = Except.error e)
    (hr : r + 1 ≤ APIRequest_MAX_RETRIES) :
    APIRequest_execute_loop f r
      = ((APIRequest_execute_loop f (r + 1)).1,
         2 ^ (r + 1) :: (APIRequest_execute_loop f (r + 1)).2) := by
  conv_lhs => rw [APIRequest_execute_loop]
  rw [hf]
  simp [hr]

/-- Unfolding lemma for APIRequest_execute_loop when the current request
fails with the ceiling exhausted. -/
theorem APIRequest_execute_loop_error_end {E α : Type} (f : Nat → Except E α)
    (r : Nat) (e : E) (hf : f r = Except.error e)
    (hr : ¬ (r + 1 ≤ APIRequest_MAX_RETRIES)) :
    APIRequest_execute_loop f r = (Except.error e, []) := by
  conv_lhs => rw [APIRequest_execute_loop]
  rw [hf]
  simp [hr]

/-- If every call up to index r + d fails and call r + d succeeds, the loop
started at r returns that success. -/
theorem retry_wrapper_loop_first_success {E α : Type} (f : Nat → Except E α)
    (e : E) (a : α) :
    ∀ (d r : Nat), r + d ≤ retry_MAX_RETRY →
    (∀ k, r ≤ k → k < r + d → f k = Except.error e) →
    f (r + d) = Except.ok a →
    (retry_wrapper_loop f r).1 = Except.ok a := by
  intro d
  induction d with
  | zero =>
      intro r _ _ hok
      rw [retry_wrapper_loop_ok f r a hok]
  | succ d ih =>
      intro r hle hk hok
      have hfr : f r = Except.error e := hk r (Nat.le_refl r) (by omega)
      rw [retry_wrapper_loop_error_step f r e hfr (by simp [retry_MAX_RETRY] at hle ⊢; omega)]
      have : r + 1 + d = r + (d + 1) := by omega
      exact ih (r + 1) (by omega) (fun k hk1 hk2 => hk k (by omega) (by omega))
        (by rw [this]; exact hok)

/-- If every request up to index r + d fails and request r + d succeeds,
the APIRequest loop started at r returns that success. -/
theorem APIRequest_execute_loop_first_success {E α : Type}
    (f : Nat → Except E α) (e : E) (a : α) :
    ∀ (d r : Nat), r + d ≤ APIRequest_MAX_RETRIES →
    (∀ k, r ≤ k → k < r + d → f k = Except.error e) →
    f (r + d) = Except.ok a →
    (APIRequest_execute_loop f r).1 = Except.ok a := by
  intro d
  induction d with
  | zero =>
      intro r _ _ hok
      rw [APIRequest_execute_loop_ok f r a hok]
  | succ d ih =>
      intro r hle hk hok
      have hfr : f r = Except.error e := hk r (Nat.le_refl r) (by omega)
      rw [APIRequest_execute_loop_error_step f r e hfr
        (by simp [APIRequest_MAX_RETRIES] at hle ⊢; omega)]
      have : r + 1 + d = r + (d + 1) := by omega
      exact ih (r + 1) (by omega) (fun k hk1 hk2 => hk k (by omega) (by omega))
        (by rw [this]; exact hok)

/-- Claim C7: both remote-call wrappers (the retry decorator of utils.py
and APIRequest.execute of api_handlers.py) retry a failing call with
exponentially increasing delays, sleeping 2 ^ n seconds before the n-th
retry, up to the fixed ceiling of 5 retry attempts; if the call still fails
after the ceiling the error raised by the underlying call is re-raised to
the caller unchanged, with the sleep trace 2, 4, 8, 16, 32; and if an
attempt within reach of the ceiling succeeds, its result is returned. -/
theorem remote_retry_policy :
    ∀ (E α : Type) (f : Nat → Except E α) (e : E) (a : α) (j : Nat),
    ((∀ k, k ≤ retry_MAX_RETRY → f k = Except.error e) →
      retry f = (Except.error e, [2, 4, 8, 16, 32])
      ∧ APIRequest_execute f = (Except.error e, [2, 4, 8, 16, 32]))
    ∧ (j ≤ retry_MAX_RETRY → (∀ k, k < j → f k = Except.error e) →
       f j = Except.ok a →
      (retry f).1 = Except.ok a
      ∧ (APIRequest_execute f).1 = Except.ok a) := by
  intro E α f e a j
  constructor
  · intro h
    have h0 := h 0 (by norm_num [retry_MAX_RETRY])
    have h1 := h 1 (by norm_num [retry_MAX_RETRY])
    have h2 := h 2 (by norm_num [retry_MAX_RETRY])
    have h3 := h 3 (by norm_num [retry_MAX_RETRY])
    have h4 := h 4 (by norm_num [retry_MAX_RETRY])
    have h5 := h 5 (by norm_num [retry_MAX_RETRY])
    constructor
    · rw [retry,
        retry_wrapper_loop_error_step f 0 e h0 (by norm_num [retry_MAX_RETRY]),
        retry_wrapper_loop_error_step f 1 e h1 (by norm_num [retry_MAX_RETRY]),
        retry_wrapper_loop_error_step f 2 e h2 (by norm_num [retry_MAX_RETRY]),
        retry_wrapper_loop_error_step f 3 e h3 (by norm_num [retry_MAX_RETRY]),
        retry_wrapper_loop_error_step f 4 e h4 (by norm_num [retry_MAX_RETRY]),
        retry_wrapper_loop_error_end f 5 e h5 (by norm_num [retry_MAX_RETRY])]
      norm_num
    · rw [APIRequest_execute,
        APIRequest_execute_loop_error_step f 0 e h0
          (by norm_num [APIRequest_MAX_RETRIES]),
        APIRequest_execute_loop_error_step f 1 e h1
          (by norm_num [APIRequest_MAX_RETRIES]),
        APIRequest_execute_loop_error_step f 2 e h2
          (by norm_num [APIRequest_MAX_RETRIES]),
        APIRequest_execute_loop_error_step f 3 e h3
          (by norm_num [APIRequest_MAX_RETRIES]),
        APIRequest_execute_loop_error_step f 4 e h4
          (by norm_num [APIRequest_MAX_RETRIES]),
        APIRequest_execute_loop_error_end f 5 e h5
          (by norm_num [APIRequest_MAX_RETRIES])]
      norm_num
  · intro hj hk hok
    constructor
    · exact retry_wrapper_loop_first_success f e a j 0 (by omega)
        (fun k _ hk2 => hk k (by omega)) (by simpa using hok)
    · exact APIRequest_execute_loop_first_success f e a j 0
        (by simp [retry_MAX_RETRY] at hj; simp [APIRequest_MAX_RETRIES]; omega)
        (fun k _ hk2 => hk k (by omega)) (by simpa using hok)

/-- Witness for C7: a call that always fails exhausts the five retries with
sleeps 2, 4, 8, 16, 32 and re-raises its error in both wrappers, while a
call that succeeds on its third attempt returns its result. -/
theorem remote_retry_policy_witness :
    retry (fun _ => (Except.error 0 : Except Int Int))
      = (Except.error 0, [2, 4, 8, 16, 32])
    ∧ APIRequest_execute (fun _ => (Except.error 0 : Except Int Int))
      = (Except.error 0, [2, 4, 8, 16, 32])
    ∧ (retry (fun k => if k < 2 then (Except.error 0 : Except Int Int)
        else Except.ok 7)).1 = Except.ok 7
    ∧ (APIRequest_execute (fun k => if k < 2 then
        (Except.error 0 : Except Int Int) else Except.ok 7)).1
      = Except.ok 7 :=
  ⟨((remote_retry_policy Int Int (fun _ => Except.error 0) 0 7 0).1
      (fun _ _ => rfl)).1,
   ((remote_retry_policy Int Int (fun _ => Except.error 0) 0 7 0).1
      (fun _ _ => rfl)).2,
   ((remote_retry_policy Int Int
      (fun k => if k < 2 then Except.error 0 else Except.ok 7) 0 7 2).2
      (by norm_num [retry_MAX_RETRY])
      (fun k hk => by simp [hk]) (by norm_num)).1,
   ((remote_retry_policy Int Int
      (fun k => if k < 2 then Except.error 0 else Except.ok 7) 0 7 2).2
      (by norm_num [retry_MAX_RETRY])
      (fun k hk => by simp [hk]) (by norm_num)).2⟩

end DNA
